import Mathlib

/-!
Verification of the devaci_module repository: a shallow embedding of the
Jinja renderer (`jinja.py`), the Cobra dispatch engine (`cobra.py`) and the
deployment orchestrator (`deploy.py`), with theorems settling the spec's
claims about them.
-/

set_option maxHeartbeats 1000000

/-! ## Python string helpers

Python `str.strip()` removes leading/trailing whitespace and `str.lower()`
maps letters to lower case (modelled here on ASCII). -/

/-- Characters Python `str.strip()` removes. -/
def isPySpace (c : Char) : Bool :=
  c = ' ' || c = '\t' || c = '\n' || c = '\x0d' || c = '\x0b' || c = '\x0c'

/-- Python `str.strip()`. -/
def pyStrip (s : String) : String :=
  String.mk (((s.toList.dropWhile isPySpace).reverse.dropWhile isPySpace).reverse)

/-- Python `str.lower()` (ASCII). -/
def pyLower (s : String) : String :=
  String.mk (s.toList.map Char.toLower)

/-! ## Python value model

Values a rendered YAML document can hold: `None`, strings, floats (only
their NaN-ness matters to this code), ints, bools, lists and dicts.
Mutual inductives keep recursion structural. -/

mutual

inductive PyVal where
  | none : PyVal
  | str (s : String) : PyVal
  | float (isNan : Bool) : PyVal
  | int (n : Int) : PyVal
  | bool (b : Bool) : PyVal
  | list (vs : PyList) : PyVal
  | dict (kvs : PyDict) : PyVal
  deriving DecidableEq

inductive PyList where
  | nil : PyList
  | cons (v : PyVal) (tl : PyList) : PyList
  deriving DecidableEq

inductive PyDict where
  | nil : PyDict
  | cons (k : String) (v : PyVal) (tl : PyDict) : PyDict
  deriving DecidableEq

end

/-- Python `k in d` / `d[k]` for a dict: lookup of the first binding. -/
def PyDict.lookup : PyDict → String → Option PyVal
  | .nil, _ => Option.none
  | .cons k v tl, key => if k = key then some v else tl.lookup key

/-! ## jinja.py: replace_str_nan_with_empty (lines 55-73)

Recursively replaces string values whose stripped, lowered form is "nan"
with the empty string, in nested dicts and lists; other values returned
unchanged. -/

mutual

/-- Embeds `replace_str_nan_with_empty` from jinja.py. -/
def replace_str_nan_with_empty : PyVal → PyVal
  | .dict kvs => .dict (replaceNanDict kvs)
  | .list vs => .list (replaceNanList vs)
  | .str s => if pyLower (pyStrip s) = "nan" then .str "" else .str s
  | v => v

/-- The list comprehension branch of `replace_str_nan_with_empty`. -/
def replaceNanList : PyList → PyList
  | .nil => .nil
  | .cons v tl => .cons (replace_str_nan_with_empty v) (replaceNanList tl)

/-- The dict comprehension branch of `replace_str_nan_with_empty`. -/
def replaceNanDict : PyDict → PyDict
  | .nil => .nil
  | .cons k v tl => .cons k (replace_str_nan_with_empty v) (replaceNanDict tl)

end

/-! ## cobra.py: not_nan_str (lines 1853-1880) -/

/-- The inner `is_invalid` of `not_nan_str`: None, empty/whitespace-only
string, "nan" (case-insensitive, stripped), or float NaN. -/
def is_invalid : PyVal → Bool
  | .none => true
  | .str s =>
      let v := pyStrip s
      v = "" || pyLower v = "nan"
  | .float isNan => isNan
  | _ => false

/-- Embeds `not_nan_str(value, keys)` from cobra.py: true iff no key of
`keys` that is present in `value` holds an invalid value. -/
def not_nan_str (value : PyDict) (keys : List String) : Bool :=
  !(keys.any fun k =>
      match value.lookup k with
      | some v => is_invalid v
      | Option.none => false)

/-- Modelled from the spec's words (C3): a present value is garbage when it
is None, an empty or all-whitespace string, the case-insensitive string
"nan" after stripping, or a float NaN. Spec-side predicate, to be compared
with `is_invalid` from the source. -/
def specGarbage : PyVal → Prop
  | .none => True
  | .str s => s.toList.all isPySpace = true ∨ pyLower (pyStrip s) = "nan"
  | .float isNan => isNan = true
  | _ => False

instance : DecidablePred specGarbage := by
  intro v
  cases v <;> simp [specGarbage] <;> infer_instance

/-! ## jinja.py: JinjaClass.render (lines 198-214)

The Jinja expansion plus the YAML parse of its output are abstracted as a
`RenderAttempt`: either they produce a document (a mapping), or some
exception object is raised.  A Python exception object may or may not carry
`message` and `lineno` attributes; the except block of `render` reads both,
so an exception lacking either makes the handler itself raise
`AttributeError`. -/

/-- A raised Python exception object as seen by the except block: its type
name, and its `message` / `lineno` attributes when they exist. -/
structure PyExcObj where
  ename : String
  message : Option String
  lineno : Option String
  deriving DecidableEq

/-- Exceptions our embedded code can itself raise past its boundary. -/
inductive PyError where
  | attributeError : PyError
  | unboundLocalError : PyError
  deriving DecidableEq

/-- Outcome of Jinja expansion + YAML parse for one template: a document,
or a raised exception. -/
inductive RenderAttempt where
  | ok (doc : PyDict) : RenderAttempt
  | raises (e : PyExcObj) : RenderAttempt
  deriving DecidableEq

/-- The `JinjaResult` fields `render` writes: `_output`, `_success`,
`_log` (initially `None` / `False` / `""`). -/
structure JinjaResult where
  output : Option PyDict
  success : Bool
  log : String
  deriving DecidableEq

/-- Embeds `JinjaClass.render`.  On success the parsed document is
post-processed by `replace_str_nan_with_empty` and success is set.  On an
exception the handler builds the log from `e.message` and `e.lineno`; if
either attribute is missing, the attribute access raises and the
`AttributeError` propagates out of `render`. -/
def JinjaClass.render (name : String) (attempt : RenderAttempt) :
    Except PyError JinjaResult :=
  match attempt with
  | .ok doc =>
      .ok { output := some (replaceNanDict doc)
            success := true
            log := "[Jinja]: Template " ++ name ++ " was rendered sucessfully." }
  | .raises e =>
      match e.message with
      | Option.none => .error .attributeError
      | some m =>
          match e.lineno with
          | Option.none => .error .attributeError
          | some l =>
              .ok { output := Option.none
                    success := false
                    log := "[Jinja] -> [" ++ e.ename ++ "]: " ++ m ++ ". Line: " ++ l }

/-! ## jinja.py: MySafeLoader scalar construction (lines 47-52, 94-95)

`MySafeLoader` registers `no_convert_int_constructor` and
`no_convert_float_constructor` for the int and float tags; both return the
node's raw text.  Strings construct as themselves; null as None; the bool
tag keeps `SafeConstructor`'s conversion (its implicit resolution is
removed separately). -/

/-- YAML scalar tags relevant to the loader. -/
inductive YamlTag where
  | intTag | floatTag | strTag | boolTag | nullTag
  deriving DecidableEq

/-- Embeds `no_convert_int_constructor`: returns `node.value` (raw text). -/
def no_convert_int_constructor (raw : String) : PyVal := .str raw

/-- Embeds `no_convert_float_constructor`: returns `node.value` (raw text). -/
def no_convert_float_constructor (raw : String) : PyVal := .str raw

/-- Scalar construction under `MySafeLoader`: custom raw-text constructors
for int and float tags, `SafeConstructor` behaviour otherwise. -/
def mySafeLoaderConstruct : YamlTag → String → PyVal
  | .intTag, raw => no_convert_int_constructor raw
  | .floatTag, raw => no_convert_float_constructor raw
  | .strTag, raw => .str raw
  | .boolTag, raw => .bool (pyLower raw ∈ ["yes", "true", "on"])
  | .nullTag, _ => .none

/-! ## cobra.py: CobraClass.render (lines 165-212)

The dispatch engine walks the rendered document's top-level keys.  Empty
values are skipped silently; a key with no callable class attribute logs a
class-not-found entry; otherwise the handler runs under a failure boundary,
mutating the shared `ConfigRequest` (the construction plan).  The local
`success` is reassigned at each non-skipped key; after the loop an empty
plan forces a failure entry and `success = False`; finally
`self._result.success = success` raises `UnboundLocalError` when no branch
ever assigned `success`.

The ~80 handler methods are out of the spec's scope; a handler is
abstracted as a function that takes the key's value and the current plan
and returns the mutated plan together with an optionally raised
exception.  Plan operations are abstract identifiers. -/

/-- One exception raised by a handler: Python type name and message. -/
structure PyExc where
  ename : String
  msg : String
  deriving DecidableEq

/-- A handler bound to one top-level key: value and current plan in,
mutated plan and optionally a raised exception out. -/
def Handler : Type := PyVal → List Nat → List Nat × Option PyExc

/-- The structured form of the log strings `CobraClass.render` appends:
class-not-found, ok, failed (with the exception's type name and text), and
the final no-object-found entry. -/
inductive LogEntry where
  | notFound (key : String) : LogEntry
  | okEntry (key : String) : LogEntry
  | failedEntry (key : String) (ename msg : String) : LogEntry
  | noObject : LogEntry
  deriving DecidableEq

/-- The state `CobraClass.render` mutates: `self.config.configMos` (the
shared construction plan) and `self._result.log`. -/
structure RenderState where
  configMos : List Nat
  log : List LogEntry
  deriving DecidableEq

/-- Python `value in (None, [], {}, "")` at cobra.py line 182. -/
def isEmptyVal : PyVal → Bool
  | .none => true
  | .str s => s = ""
  | .list PyList.nil => true
  | .dict PyDict.nil => true
  | _ => false

/-- The for-loop of `CobraClass.render`: threads the state and the local
`success` variable (`Option.none` while still unassigned) through the
document's items. -/
def renderLoop (handlers : String → Option Handler) :
    PyDict → RenderState × Option Bool → RenderState × Option Bool
  | .nil, acc => acc
  | .cons key value tl, (st, success) =>
      if isEmptyVal value then
        renderLoop handlers tl (st, success)
      else
        match handlers key with
        | Option.none =>
            renderLoop handlers tl
              ({ st with log := st.log ++ [.notFound key] }, some false)
        | some h =>
            match h value st.configMos with
            | (mos, Option.none) =>
                renderLoop handlers tl
                  ({ configMos := mos, log := st.log ++ [.okEntry key] }, some true)
            | (mos, some e) =>
                renderLoop handlers tl
                  ({ configMos := mos, log := st.log ++ [.failedEntry key e.ename e.msg] },
                   some false)

/-- Embeds `CobraClass.render`.  Returns the final state (the fields
written to `self._result`) and either the assigned success flag or the
`UnboundLocalError` raised at `self._result.success = success` when the
local was never assigned. -/
def CobraClass.render (handlers : String → Option Handler) (doc : PyDict)
    (st0 : RenderState) : RenderState × Except PyError Bool :=
  let p := renderLoop handlers doc (st0, Option.none)
  let q :=
    if p.1.configMos.isEmpty then
      ({ configMos := p.1.configMos, log := p.1.log ++ [.noObject] }, some false)
    else p
  (q.1,
   match q.2 with
   | some b => .ok b
   | Option.none => .error .unboundLocalError)

/-- Count of class-not-found entries in a log. -/
def countNotFound (log : List LogEntry) : Nat :=
  log.countP fun e => match e with | .notFound _ => true | _ => false

/-- Count of ok entries in a log. -/
def countOk (log : List LogEntry) : Nat :=
  log.countP fun e => match e with | .okEntry _ => true | _ => false

/-- Count of failed handler entries in a log. -/
def countFailed (log : List LogEntry) : Nat :=
  log.countP fun e => match e with | .failedEntry _ _ _ => true | _ => false

/-- Every top-level value of the document is empty (skip-eligible). -/
def allEmpty : PyDict → Bool
  | .nil => true
  | .cons _ v tl => isEmptyVal v && allEmpty tl

/-! ## deploy.py: DeployClass.deploy (lines 176-238)

The orchestrator loop runs Jinja render then Cobra render per template
under one `except Exception` boundary, appends one result record per
template, then (unless in testing mode, and only when the last Cobra pass
succeeded) runs the commit step `try: login; commit; except: pass;
finally: logout`, and finally writes the audit file when logging is
enabled.  `logout()` sits in the `finally` block outside any handler, so
an exception it raises propagates out of `deploy` and skips the audit
write. -/

/-- The fields of one persisted result record this development tracks:
the template's name and its success flag. -/
structure DeployRecord where
  rname : String
  success : Bool
  deriving DecidableEq

/-- The instance state `deploy` reads and mutates across calls:
`self._template`, `self._results`, the shared `CobraClass` state and
`self._cobra.result.success`. -/
structure DeployState where
  templates : List (String × RenderAttempt)
  results : List DeployRecord
  cobra : RenderState
  cobraSuccess : Bool
  deriving DecidableEq

/-- Configuration and collaborator behaviour for one `deploy` call: the
handler table, `testing` / `logging` flags, and whether `login`, `commit`
and `logout` raise. -/
structure DeployEnv where
  handlers : String → Option Handler
  testing : Bool
  logging : Bool
  loginExc : Option PyExc
  commitExc : Option PyExc
  logoutExc : Option PyExc

/-- The try/except body of one template-loop iteration: runs the Jinja
render and, when it succeeds, the Cobra render on the shared state; every
raised exception is caught by the loop's `except Exception` and recorded
as `success=False`.  Returns the new shared Cobra state, the new value of
`self._cobra.result.success` and the template's result record. -/
def deployTemplate (handlers : String → Option Handler) (cobra : RenderState)
    (cs : Bool) (t : String × RenderAttempt) : RenderState × Bool × DeployRecord :=
  match JinjaClass.render t.1 t.2 with
  | .error _ => (cobra, cs, ⟨t.1, false⟩)
  | .ok jr =>
      if jr.success then
        match jr.output with
        | some doc =>
            match CobraClass.render handlers doc cobra with
            | (st', .ok b) => (st', b, ⟨t.1, b⟩)
            | (st', .error _) => (st', cs, ⟨t.1, false⟩)
        | Option.none => (cobra, cs, ⟨t.1, false⟩)
      else
        (cobra, cs, ⟨t.1, false⟩)

/-- One iteration of the template loop: the try/except body, then the
unconditional `self._results.append(_deploy.json)`. -/
def deployStep (handlers : String → Option Handler)
    (acc : RenderState × Bool × List DeployRecord) (t : String × RenderAttempt) :
    RenderState × Bool × List DeployRecord :=
  let r := deployTemplate handlers acc.1 acc.2.1 t
  (r.1, r.2.1, acc.2.2 ++ [r.2.2])

/-- The commit step's control flow: exceptions from `login` and `commit`
are caught by the `except` clause; an exception from `logout` in the
`finally` block propagates. -/
def commitStep (env : DeployEnv) : Except PyExc Unit :=
  let tryRaised : Option PyExc :=
    match env.loginExc with
    | some e => some e
    | Option.none => env.commitExc
  let _ := tryRaised
  match env.logoutExc with
  | some e => .error e
  | Option.none => .ok ()

/-- Embeds `DeployClass.deploy`.  Returns the updated instance state and
either the propagated exception, or the audit-file content written
(`some records`) respectively `Option.none` when no write happened (empty
template list, or logging disabled). -/
def DeployClass.deploy (env : DeployEnv) (st : DeployState) :
    DeployState × Except PyExc (Option (List DeployRecord)) :=
  if st.templates.isEmpty then
    (st, .ok Option.none)
  else
    let f := st.templates.foldl (deployStep env.handlers) (st.cobra, st.cobraSuccess, [])
    let st' : DeployState :=
      { templates := st.templates, results := st.results ++ f.2.2
        cobra := f.1, cobraSuccess := f.2.1 }
    let commitOutcome : Except PyExc Unit :=
      if !env.testing && f.2.1 then commitStep env else .ok ()
    match commitOutcome with
    | .error e => (st', .error e)
    | .ok _ =>
        if env.logging then (st', .ok (some st'.results))
        else (st', .ok Option.none)

/-! ## Spec-side relation for the nan rewrite (C6)

Modelled from the spec: the rewrite turns every string leaf that
case-insensitively equals "nan" into the empty string at any nesting depth
and leaves every float NaN value and every other non-string value
unchanged; it says nothing about other string leaves.  Stated as a
relation between source document and rewritten document. -/

mutual

inductive NanRewriteClaim : PyVal → PyVal → Prop where
  | noneCase : NanRewriteClaim .none .none
  | intCase (n : Int) : NanRewriteClaim (.int n) (.int n)
  | boolCase (b : Bool) : NanRewriteClaim (.bool b) (.bool b)
  | floatCase (isNan : Bool) : NanRewriteClaim (.float isNan) (.float isNan)
  | strNan (s : String) : pyLower s = "nan" → NanRewriteClaim (.str s) (.str "")
  | strOther (s t : String) : pyLower s ≠ "nan" → NanRewriteClaim (.str s) (.str t)
  | listCase (vs ws : PyList) : NanRewriteClaimL vs ws →
      NanRewriteClaim (.list vs) (.list ws)
  | dictCase (kvs kws : PyDict) : NanRewriteClaimD kvs kws →
      NanRewriteClaim (.dict kvs) (.dict kws)

inductive NanRewriteClaimL : PyList → PyList → Prop where
  | nil : NanRewriteClaimL .nil .nil
  | cons (v w : PyVal) (tl tl' : PyList) : NanRewriteClaim v w →
      NanRewriteClaimL tl tl' → NanRewriteClaimL (.cons v tl) (.cons w tl')

inductive NanRewriteClaimD : PyDict → PyDict → Prop where
  | nil : NanRewriteClaimD .nil .nil
  | cons (k : String) (v w : PyVal) (tl tl' : PyDict) : NanRewriteClaim v w →
      NanRewriteClaimD tl tl' → NanRewriteClaimD (.cons k v tl) (.cons k w tl')

end

/-! ## Concrete dispatch scenario (C1)

One key whose handler raises and two keys whose handlers succeed, per the
spec's dispatch-isolation scenario. -/

/-- A handler that appends one abstract operation and succeeds. -/
def goodHandler (op : Nat) : Handler := fun _ mos => (mos ++ [op], Option.none)

/-- A handler that raises before constructing anything. -/
def badHandler : Handler := fun _ mos => (mos, some ⟨"ValueError", "boom"⟩)

/-- The scenario's handler table: `bad` raises, `g1` and `g2` succeed. -/
def scenarioHandlers : String → Option Handler := fun k =>
  if k = "bad" then some badHandler
  else if k = "g1" then some (goodHandler 1)
  else if k = "g2" then some (goodHandler 2)
  else Option.none

/-- Scenario document with the raising key first. -/
def docBadFirst : PyDict :=
  .cons "bad" (.str "x") (.cons "g1" (.str "x") (.cons "g2" (.str "x") .nil))

/-- Scenario document with the raising key in the middle. -/
def docBadMid : PyDict :=
  .cons "g1" (.str "x") (.cons "bad" (.str "x") (.cons "g2" (.str "x") .nil))

/-- Scenario document with the raising key last. -/
def docBadLast : PyDict :=
  .cons "g1" (.str "x") (.cons "g2" (.str "x") (.cons "bad" (.str "x") .nil))

/-- The empty render state (fresh `CobraClass`). -/
def stEmpty : RenderState := ⟨[], []⟩

/-! ## Helper lemmas about Python string operations -/

theorem toList_mk (l : List Char) : (String.mk l).toList = l := rfl

theorem mk_toList (s : String) : String.mk s.toList = s := by cases s; rfl

theorem isPySpace_toLower_self (c : Char) (h : isPySpace c = true) :
    c.toLower = c := by
  simp only [isPySpace, Bool.or_eq_true, decide_eq_true_eq] at h
  rcases h with ((((h | h) | h) | h) | h) | h <;> subst h <;> decide

theorem no_space_of_pyLower_nan (s : String) (h : pyLower s = "nan") :
    ∀ c ∈ s.toList, isPySpace c = false := by
  intro c hc
  have hmap : s.toList.map Char.toLower = ['n', 'a', 'n'] := by
    have h2 := congrArg String.toList h
    rw [pyLower, toList_mk] at h2
    exact h2
  have hmem : c.toLower ∈ ['n', 'a', 'n'] := by
    rw [← hmap]
    exact List.mem_map_of_mem _ hc
  by_contra hsp
  have hsp2 : isPySpace c = true := by
    cases h3 : isPySpace c with
    | true => rfl
    | false => exact absurd h3 hsp
  have hself := isPySpace_toLower_self c hsp2
  rw [hself] at hmem
  simp only [isPySpace, Bool.or_eq_true, decide_eq_true_eq] at hsp2
  rcases hsp2 with ((((h4 | h4) | h4) | h4) | h4) | h4 <;> subst h4 <;> simp at hmem

theorem dropWhile_eq_self_of_none (p : Char → Bool) (l : List Char)
    (h : ∀ c ∈ l, p c = false) : l.dropWhile p = l := by
  cases l with
  | nil => rfl
  | cons a l => simp [List.dropWhile, h a (List.mem_cons_self a l)]

theorem pyStrip_eq_self (s : String) (h : ∀ c ∈ s.toList, isPySpace c = false) :
    pyStrip s = s := by
  rw [pyStrip, dropWhile_eq_self_of_none _ _ h,
    dropWhile_eq_self_of_none _ _ (fun c hc => h c (List.mem_reverse.mp hc)),
    List.reverse_reverse, mk_toList]

/-! ## C6 helper: the rewrite satisfies the spec-side relation -/

mutual

theorem nanRewriteClaim_of_replace (v : PyVal) :
    NanRewriteClaim v (replace_str_nan_with_empty v) := by
  cases v with
  | none => exact .noneCase
  | int n => exact .intCase n
  | bool b => exact .boolCase b
  | float isNan => exact .floatCase isNan
  | str s =>
      by_cases hlow : pyLower s = "nan"
      · have hstrip : pyStrip s = s := pyStrip_eq_self s (no_space_of_pyLower_nan s hlow)
        have hred : replace_str_nan_with_empty (.str s) = .str "" := by
          rw [replace_str_nan_with_empty, hstrip, if_pos hlow]
        rw [hred]
        exact .strNan s hlow
      · rw [replace_str_nan_with_empty]
        by_cases hc : pyLower (pyStrip s) = "nan"
        · rw [if_pos hc]
          exact .strOther s "" hlow
        · rw [if_neg hc]
          exact .strOther s s hlow
  | list vs =>
      rw [replace_str_nan_with_empty]
      exact .listCase vs (replaceNanList vs) (nanRewriteClaimL_of vs)
  | dict kvs =>
      rw [replace_str_nan_with_empty]
      exact .dictCase kvs (replaceNanDict kvs) (nanRewriteClaimD_of kvs)

theorem nanRewriteClaimL_of (vs : PyList) :
    NanRewriteClaimL vs (replaceNanList vs) := by
  cases vs with
  | nil => exact .nil
  | cons v tl =>
      rw [replaceNanList]
      exact .cons _ _ _ _ (nanRewriteClaim_of_replace v) (nanRewriteClaimL_of tl)

theorem nanRewriteClaimD_of (kvs : PyDict) :
    NanRewriteClaimD kvs (replaceNanDict kvs) := by
  cases kvs with
  | nil => exact .nil
  | cons k v tl =>
      rw [replaceNanDict]
      exact .cons k _ _ _ _ (nanRewriteClaim_of_replace v) (nanRewriteClaimD_of tl)

end

/-! ## C8 helper: the rewrite is idempotent -/

mutual

theorem replace_idem (v : PyVal) :
    replace_str_nan_with_empty (replace_str_nan_with_empty v) =
      replace_str_nan_with_empty v := by
  cases v with
  | none => rfl
  | int n => rfl
  | bool b => rfl
  | float isNan => rfl
  | str s =>
      by_cases hc : pyLower (pyStrip s) = "nan"
      · rw [replace_str_nan_with_empty, if_pos hc]
        rfl
      · rw [replace_str_nan_with_empty, if_neg hc,
          replace_str_nan_with_empty, if_neg hc]
  | list vs =>
      rw [replace_str_nan_with_empty, replace_str_nan_with_empty,
        replaceNanList_idem vs]
  | dict kvs =>
      rw [replace_str_nan_with_empty, replace_str_nan_with_empty,
        replaceNanDict_idem kvs]

theorem replaceNanList_idem (vs : PyList) :
    replaceNanList (replaceNanList vs) = replaceNanList vs := by
  cases vs with
  | nil => rfl
  | cons v tl =>
      rw [replaceNanList, replaceNanList, replace_idem v, replaceNanList_idem tl]

theorem replaceNanDict_idem (kvs : PyDict) :
    replaceNanDict (replaceNanDict kvs) = replaceNanDict kvs := by
  cases kvs with
  | nil => rfl
  | cons k v tl =>
      rw [replaceNanDict, replaceNanDict, replace_idem v, replaceNanDict_idem tl]

end

/-! ## C3 helpers: is_invalid agrees with the spec-side garbage predicate -/

theorem pyStrip_empty_iff (s : String) :
    pyStrip s = "" ↔ s.toList.all isPySpace = true := by
  constructor
  · intro h
    have hl : (((s.toList.dropWhile isPySpace).reverse.dropWhile isPySpace).reverse) = [] := by
      have := congrArg String.toList h
      rwa [pyStrip, toList_mk] at this
    rw [List.reverse_eq_nil_iff, List.dropWhile_eq_nil_iff] at hl
    rw [List.all_eq_true]
    intro c hc
    rcases List.mem_append.mp
        ((List.takeWhile_append_dropWhile isPySpace s.toList ▸ hc : _)) with h1 | h1
    · exact List.mem_takeWhile_imp h1
    · exact hl c (List.mem_reverse.mpr h1)
  · intro h
    rw [List.all_eq_true] at h
    have h1 : s.toList.dropWhile isPySpace = [] := by
      rw [List.dropWhile_eq_nil_iff]
      exact fun c hc => h c hc
    rw [pyStrip, h1]
    rfl

theorem is_invalid_iff_specGarbage (v : PyVal) :
    is_invalid v = true ↔ specGarbage v := by
  cases v with
  | none => simp [is_invalid, specGarbage]
  | str s =>
      simp only [is_invalid, specGarbage, Bool.or_eq_true, decide_eq_true_eq]
      rw [pyStrip_empty_iff]
  | float isNan => simp [is_invalid, specGarbage]
  | int n => simp [is_invalid, specGarbage]
  | bool b => simp [is_invalid, specGarbage]
  | list vs => simp [is_invalid, specGarbage]
  | dict kvs => simp [is_invalid, specGarbage]

/-! ## Dispatch-loop and deploy-loop helper lemmas -/

theorem renderLoop_allEmpty (handlers : String → Option Handler) :
    ∀ (doc : PyDict) (acc : RenderState × Option Bool), allEmpty doc = true →
      renderLoop handlers doc acc = acc
  | .nil, _, _ => rfl
  | .cons k v tl, (st, success), h => by
      rw [allEmpty, Bool.and_eq_true] at h
      rw [renderLoop, if_pos h.1]
      exact renderLoop_allEmpty handlers tl (st, success) h.2

theorem deployTemplate_rname (h : String → Option Handler) (cobra : RenderState)
    (cs : Bool) (t : String × RenderAttempt) :
    (deployTemplate h cobra cs t).2.2.rname = t.1 := by
  rw [deployTemplate]
  split
  · rfl
  · split
    · split
      · split
        · rfl
        · rfl
      · rfl
    · rfl

theorem foldl_deployStep_records (h : String → Option Handler)
    (ts : List (String × RenderAttempt)) :
    ∀ acc : RenderState × Bool × List DeployRecord,
      ((ts.foldl (deployStep h) acc).2.2).length = acc.2.2.length + ts.length ∧
      ((ts.foldl (deployStep h) acc).2.2).map DeployRecord.rname =
        acc.2.2.map DeployRecord.rname ++ ts.map Prod.fst := by
  induction ts with
  | nil => intro acc; simp
  | cons t ts ih =>
      intro acc
      rw [List.foldl_cons]
      obtain ⟨ih1, ih2⟩ := ih (deployStep h acc t)
      refine ⟨?_, ?_⟩
      · rw [ih1]
        simp only [deployStep, List.length_append, List.length_cons,
          List.length_nil, List.length_map]
        omega
      · rw [ih2]
        simp only [deployStep, List.map_append, List.map_cons, List.map_nil,
          deployTemplate_rname]
        simp

/-! ## Concrete deploy scenarios (C5, C9) -/

/-- A template whose expansion and parse yield one handled, non-empty key. -/
def goodAttempt : RenderAttempt := .ok (.cons "g1" (.str "x") .nil)

/-- A template whose expansion raises a Jinja syntax error carrying both
`message` and `lineno`. -/
def badAttempt : RenderAttempt :=
  .raises ⟨"TemplateSyntaxError", some "bad syntax", some "3"⟩

/-- Deploy state: a fresh instance configured with one succeeding template. -/
def stOneGood : DeployState :=
  { templates := [("t1", goodAttempt)], results := [], cobra := stEmpty
    cobraSuccess := false }

/-- Deploy state: a fresh instance with one succeeding and one failing
template. -/
def stMixed : DeployState :=
  { templates := [("t1", goodAttempt), ("t2", badAttempt)], results := []
    cobra := stEmpty, cobraSuccess := false }

/-- Environment where the management plane's `logout()` raises. -/
def envLogoutBoom : DeployEnv :=
  { handlers := scenarioHandlers, testing := false, logging := true
    loginExc := Option.none, commitExc := Option.none
    logoutExc := some ⟨"ConnectionError", "down"⟩ }

/-- Environment in dry-run (`testing`) mode with logging enabled. -/
def envTesting : DeployEnv :=
  { handlers := scenarioHandlers, testing := true, logging := true
    loginExc := Option.none, commitExc := Option.none, logoutExc := Option.none }

/-- Environment where `login()` raises but `logout()` does not. -/
def envLoginBoom : DeployEnv :=
  { handlers := scenarioHandlers, testing := false, logging := true
    loginExc := some ⟨"LoginError", "denied"⟩, commitExc := Option.none
    logoutExc := Option.none }

/-! ## Claim theorems -/

/-- C1 counterexample: in the spec's dispatch-isolation scenario with the
raising key processed first, the plan holds the two succeeding handlers'
operations and the log has exactly one failed, two ok and no
class-not-found entries, yet the reported overall success is `true` — so
the success flag is not the claimed conjunction and is not false
regardless of key order. -/
theorem C1_counterexample :
    (CobraClass.render scenarioHandlers docBadFirst stEmpty).2 = .ok true ∧
    countFailed (CobraClass.render scenarioHandlers docBadFirst stEmpty).1.log = 1 ∧
    countOk (CobraClass.render scenarioHandlers docBadFirst stEmpty).1.log = 2 ∧
    countNotFound (CobraClass.render scenarioHandlers docBadFirst stEmpty).1.log = 0 ∧
    (CobraClass.render scenarioHandlers docBadFirst stEmpty).1.configMos = [1, 2] :=
  ⟨rfl, rfl, rfl, rfl, rfl⟩

/-- C1 amended: in the dispatch-isolation scenario the plan contains the
two succeeding handlers' operations and the log contains exactly one
failed and two ok entries whatever the key order, but the reported overall
success equals the outcome of the last processed key: it is false exactly
when the raising key is processed last (the loop keeps only the last
key's success, overridden to false only by an empty plan). -/
theorem C1_amended_last_key_wins :
    CobraClass.render scenarioHandlers docBadFirst stEmpty =
      (⟨[1, 2], [.failedEntry "bad" "ValueError" "boom", .okEntry "g1", .okEntry "g2"]⟩,
       .ok true) ∧
    CobraClass.render scenarioHandlers docBadMid stEmpty =
      (⟨[1, 2], [.okEntry "g1", .failedEntry "bad" "ValueError" "boom", .okEntry "g2"]⟩,
       .ok true) ∧
    CobraClass.render scenarioHandlers docBadLast stEmpty =
      (⟨[1, 2], [.okEntry "g1", .okEntry "g2", .failedEntry "bad" "ValueError" "boom"]⟩,
       .ok false) :=
  ⟨rfl, rfl, rfl⟩

/-- C2: `JinjaClass.render`'s except block reads `e.message` and
`e.lineno`; for an exception carrying no `message` attribute (e.g. a YAML
ScannerError) or no `lineno` attribute, the attribute access itself raises
and an `AttributeError` propagates out of `render`, contradicting the
never-raises claim. -/
theorem C2_render_propagates_attribute_error :
    JinjaClass.render "template" (.raises ⟨"ScannerError", Option.none, Option.none⟩) =
      .error .attributeError ∧
    JinjaClass.render "template"
        (.raises ⟨"UndefinedError", some "x is undefined", Option.none⟩) =
      .error .attributeError :=
  ⟨rfl, rfl⟩

/-- C3: `not_nan_str(m, K)` returns false iff some key of `K` present in
`m` holds a value that is None, an empty or all-whitespace string, the
case-insensitive string "nan" after stripping, or a float NaN — and true
otherwise, including when no key of `K` is present in `m`. -/
theorem C3_not_nan_str_false_iff (m : PyDict) (K : List String) :
    not_nan_str m K = false ↔
      ∃ k ∈ K, ∃ v, m.lookup k = some v ∧ specGarbage v := by
  rw [not_nan_str, Bool.not_eq_false', List.any_eq_true]
  constructor
  · rintro ⟨k, hk, hp⟩
    cases hv : m.lookup k with
    | none => rw [hv] at hp; exact absurd hp (by simp)
    | some v =>
        rw [hv] at hp
        exact ⟨k, hk, v, hv, (is_invalid_iff_specGarbage v).mp hp⟩
  · rintro ⟨k, hk, v, hv, hg⟩
    refine ⟨k, hk, ?_⟩
    rw [hv]
    exact (is_invalid_iff_specGarbage v).mpr hg

/-- C4: whenever the construction plan is empty after all top-level keys
are processed, `CobraClass.render` emits a final no-object-found failure
entry as the last log entry and reports overall success false — also when
every key was silently skipped. -/
theorem C4_empty_plan_forces_failure (handlers : String → Option Handler)
    (doc : PyDict) (st0 : RenderState)
    (h : (CobraClass.render handlers doc st0).1.configMos = []) :
    (CobraClass.render handlers doc st0).2 = .ok false ∧
    (CobraClass.render handlers doc st0).1.log.getLast? = some .noObject := by
  by_cases h1 : (renderLoop handlers doc (st0, Option.none)).1.configMos.isEmpty
  · refine ⟨?_, ?_⟩
    · simp [CobraClass.render, h1]
    · simp [CobraClass.render, h1, List.getLast?_concat]
  · exfalso
    simp [CobraClass.render, h1] at h
    rw [h] at h1
    exact h1 rfl

/-- C4 witness: a document whose single key holds an empty value, run on a
fresh state — the plan stays empty, the final entry is the no-object
failure and the reported success is false. -/
theorem C4_witness :
    (CobraClass.render scenarioHandlers (.cons "a" (.str "") .nil) stEmpty).1.configMos
        = [] ∧
    (CobraClass.render scenarioHandlers (.cons "a" (.str "") .nil) stEmpty).2
        = .ok false ∧
    (CobraClass.render scenarioHandlers (.cons "a" (.str "") .nil) stEmpty).1.log.getLast?
        = some .noObject :=
  ⟨rfl,
   (C4_empty_plan_forces_failure scenarioHandlers (.cons "a" (.str "") .nil) stEmpty rfl).1,
   (C4_empty_plan_forces_failure scenarioHandlers (.cons "a" (.str "") .nil) stEmpty rfl).2⟩

/-- C6: `replace_str_nan_with_empty` relates every document to its rewrite
per the spec: every string leaf case-insensitively equal to "nan" becomes
the empty string at any nesting depth, and every float NaN value and every
other non-string value is unchanged. -/
theorem C6_nan_rewrite_meets_spec (v : PyVal) :
    NanRewriteClaim v (replace_str_nan_with_empty v) :=
  nanRewriteClaim_of_replace v

/-- C7: the custom loader's int and float constructors return the node's
raw text for every scalar, so integer-shaped and float-shaped leaves keep
their literal textual form — in particular 007 and 1.50. -/
theorem C7_numeric_literal_preservation :
    (∀ raw : String, mySafeLoaderConstruct .intTag raw = .str raw) ∧
    (∀ raw : String, mySafeLoaderConstruct .floatTag raw = .str raw) ∧
    mySafeLoaderConstruct .intTag "007" = .str "007" ∧
    mySafeLoaderConstruct .floatTag "1.50" = .str "1.50" :=
  ⟨fun _ => rfl, fun _ => rfl, rfl, rfl⟩

/-- C8: the nan-string rewrite is idempotent: applying
`replace_str_nan_with_empty` twice equals applying it once. -/
theorem C8_nan_rewrite_idempotent (v : PyVal) :
    replace_str_nan_with_empty (replace_str_nan_with_empty v) =
      replace_str_nan_with_empty v :=
  replace_idem v

/-- C10: on a document whose every top-level value is empty, while the
shared plan already holds operations from an earlier render, the local
`success` of `CobraClass.render` is never assigned and the method raises
`UnboundLocalError` instead of returning an outcome. -/
theorem C10_unbound_local_error (handlers : String → Option Handler)
    (doc : PyDict) (st0 : RenderState) (hdoc : allEmpty doc = true)
    (hplan : st0.configMos ≠ []) :
    CobraClass.render handlers doc st0 = (st0, .error .unboundLocalError) := by
  have hloop := renderLoop_allEmpty handlers doc (st0, Option.none) hdoc
  have hne : st0.configMos.isEmpty = false := by
    cases hm : st0.configMos with
    | nil => exact absurd hm hplan
    | cons a l => rfl
  simp [CobraClass.render, hloop, hne]

/-- C10 witness: a one-key document with an empty value, dispatched while
the shared plan already holds an operation, raises `UnboundLocalError`. -/
theorem C10_witness :
    allEmpty (.cons "a" (.str "") .nil) = true ∧
    (RenderState.mk [7] []).configMos ≠ [] ∧
    CobraClass.render scenarioHandlers (.cons "a" (.str "") .nil) ⟨[7], []⟩ =
      (⟨[7], []⟩, .error .unboundLocalError) :=
  ⟨rfl, by decide,
   C10_unbound_local_error scenarioHandlers (.cons "a" (.str "") .nil) ⟨[7], []⟩ rfl
     (by decide)⟩

/-- When `logout()` does not raise, `deploy` on a non-empty template list
appends the loop's records to the instance's results and returns the audit
write decision. -/
theorem deploy_ok_of_no_logout (env : DeployEnv) (st : DeployState)
    (h : env.logoutExc = Option.none) (hne : st.templates.isEmpty = false) :
    (DeployClass.deploy env st).1.results =
      st.results ++ (st.templates.foldl (deployStep env.handlers)
        (st.cobra, st.cobraSuccess, [])).2.2 ∧
    (DeployClass.deploy env st).2 =
      (if env.logging then
        .ok (some (st.results ++ (st.templates.foldl (deployStep env.handlers)
          (st.cobra, st.cobraSuccess, [])).2.2))
      else .ok Option.none) := by
  have hcommit : commitStep env = .ok () := by rw [commitStep, h]
  cases hl : env.logging <;>
    cases hc : !env.testing && (st.templates.foldl (deployStep env.handlers)
      (st.cobra, st.cobraSuccess, [])).2.1 <;>
    simp [DeployClass.deploy, hne, hcommit, hc, hl]

/-- C5 counterexample: with a succeeding template, commit enabled and a
management plane whose `logout()` raises, `deploy` propagates the
exception to its caller even though logging is enabled (so the audit write
is skipped) — contradicting the claim that any commit-step error
(including logout) is caught. -/
theorem C5_counterexample :
    (DeployClass.deploy envLogoutBoom stOneGood).2 =
      .error ⟨"ConnectionError", "down"⟩ ∧
    envLogoutBoom.logging = true :=
  ⟨rfl, rfl⟩

/-- C5 amended: per-template failures are captured and the loop always
appends one result per template, and `deploy` raises nothing when
`logout()` does not raise (errors from the countdown, `login` and `commit`
are caught); an exception from `logout()` in the `finally` block is the
one uncaught path. -/
theorem C5_amended_no_raise_without_logout_error (env : DeployEnv)
    (st : DeployState) (h : env.logoutExc = Option.none) :
    (∃ r, (DeployClass.deploy env st).2 = .ok r) ∧
    (DeployClass.deploy env st).1.results.length =
      st.results.length + st.templates.length := by
  cases hts : st.templates with
  | nil =>
      refine ⟨⟨Option.none, ?_⟩, ?_⟩ <;> simp [DeployClass.deploy, hts]
  | cons t ts =>
      have hne : st.templates.isEmpty = false := by rw [hts]; rfl
      have hred := deploy_ok_of_no_logout env st h hne
      refine ⟨?_, ?_⟩
      · rw [hred.2]
        cases hl : env.logging
        · exact ⟨Option.none, by simp⟩
        · exact ⟨some (st.results ++ (st.templates.foldl (deployStep env.handlers)
            (st.cobra, st.cobraSuccess, [])).2.2), by simp⟩
      · have hrec := (foldl_deployStep_records env.handlers st.templates
          (st.cobra, st.cobraSuccess, [])).1
        simp only [List.length_nil, Nat.zero_add] at hrec
        rw [hred.1, List.length_append, hrec, hts]

/-- C5 amended witness: one succeeding and one failing template with a
raising `login()` but a quiet `logout()` — deploy returns normally, both
templates are recorded, the audit file is written with the per-template
outcomes, and the login error was caught. -/
theorem C5_amended_witness :
    envLoginBoom.logoutExc = Option.none ∧
    ((∃ r, (DeployClass.deploy envLoginBoom stMixed).2 = .ok r) ∧
      (DeployClass.deploy envLoginBoom stMixed).1.results.length =
        stMixed.results.length + stMixed.templates.length) ∧
    (DeployClass.deploy envLoginBoom stMixed).2 =
      .ok (some [⟨"t1", true⟩, ⟨"t2", false⟩]) :=
  ⟨rfl, C5_amended_no_raise_without_logout_error envLoginBoom stMixed rfl, rfl⟩

/-- C9 counterexample: a second `deploy()` call on the same instance (one
configured template) writes an audit file with the accumulated two
records, not exactly N = 1 records. -/
theorem C9_counterexample :
    (DeployClass.deploy envTesting ((DeployClass.deploy envTesting stOneGood).1)).2 =
      .ok (some [⟨"t1", true⟩, ⟨"t1", true⟩]) ∧
    ((DeployClass.deploy envTesting stOneGood).1).templates.length = 1 :=
  ⟨rfl, rfl⟩

/-- C9 amended: on a fresh instance (no results accumulated from earlier
`deploy` calls), with logging enabled, at least one template, and no
logout error aborting the run, the audit write contains exactly the
template loop's records: one per template, in template order, each
carrying that template's pipeline outcome; a later call on the same
instance rewrites the file with the accumulated records instead. -/
theorem C9_amended_fresh_instance (env : DeployEnv) (st : DeployState)
    (hfresh : st.results = []) (hlog : env.logging = true)
    (hne : st.templates.isEmpty = false) (hlogout : env.logoutExc = Option.none) :
    (DeployClass.deploy env st).2 =
      .ok (some ((st.templates.foldl (deployStep env.handlers)
        (st.cobra, st.cobraSuccess, [])).2.2)) ∧
    ((st.templates.foldl (deployStep env.handlers)
        (st.cobra, st.cobraSuccess, [])).2.2).length = st.templates.length ∧
    ((st.templates.foldl (deployStep env.handlers)
        (st.cobra, st.cobraSuccess, [])).2.2).map DeployRecord.rname =
      st.templates.map Prod.fst := by
  have hred := deploy_ok_of_no_logout env st hlogout hne
  have hrec := foldl_deployStep_records env.handlers st.templates
    (st.cobra, st.cobraSuccess, [])
  refine ⟨?_, ?_, ?_⟩
  · rw [hred.2, if_pos hlog, hfresh]
    simp
  · have h1 := hrec.1
    simp only [List.length_nil] at h1
    simpa using h1
  · have h2 := hrec.2
    simpa using h2

/-- C9 amended witness: a fresh instance with one succeeding and one
failing template in dry-run mode — the audit holds exactly the two
records, in order, with matching outcomes. -/
theorem C9_amended_witness :
    stMixed.results = [] ∧ envTesting.logging = true ∧
    stMixed.templates.isEmpty = false ∧ envTesting.logoutExc = Option.none ∧
    ((DeployClass.deploy envTesting stMixed).2 =
        .ok (some ((stMixed.templates.foldl (deployStep envTesting.handlers)
          (stMixed.cobra, stMixed.cobraSuccess, [])).2.2)) ∧
      ((stMixed.templates.foldl (deployStep envTesting.handlers)
          (stMixed.cobra, stMixed.cobraSuccess, [])).2.2).length =
        stMixed.templates.length ∧
      ((stMixed.templates.foldl (deployStep envTesting.handlers)
          (stMixed.cobra, stMixed.cobraSuccess, [])).2.2).map DeployRecord.rname =
        stMixed.templates.map Prod.fst) ∧
    (DeployClass.deploy envTesting stMixed).2 =
      .ok (some [⟨"t1", true⟩, ⟨"t2", false⟩]) :=
  ⟨rfl, rfl, rfl, rfl,
   C9_amended_fresh_instance envTesting stMixed rfl rfl rfl rfl, rfl⟩
